import Mathlib

/-!
Shallow embedding of `src/lib/src/launchpad.rs` (launch-rs).

Wire output is modelled as the list of byte frames handed to the MIDI
output port, in order.  A Rust `assert!`/`panic!` is modelled by the
`Outcome.panicked` constructor, which still records the frames that were
already sent before the panic fired (sends are irrevocable side effects).
u8 values are modelled as `Nat`; callers pass values below 256.
-/

namespace LaunchRs

/-- One complete byte message handed to `output_port.send`. -/
abbrev Frame := List Nat

/-- Result of an operation: the frames sent, and whether it panicked
(`panicked fs` means the frames `fs` were sent before the panic). -/
inductive Outcome where
  | ok (frames : List Frame)
  | panicked (frames : List Frame)
  deriving DecidableEq

/-- The frames actually transmitted, whether or not the call panicked. -/
def Outcome.frames : Outcome → List Frame
  | .ok fs => fs
  | .panicked fs => fs

structure MidiMessage where
  status : Nat
  data1 : Nat
  data2 : Nat
  deriving DecidableEq

structure MidiEvent where
  timestamp : Nat
  message : MidiMessage
  deriving DecidableEq

/-- `LaunchpadInternal::guess_from`, input-callback part: a raw message of
exactly 3 bytes is wrapped with its timestamp and appended to the queue;
any other length falls to the wildcard arm and is ignored. -/
def on_midi_message (queue : List MidiEvent) (time : Nat) (msg : List Nat) :
    List MidiEvent :=
  match msg with
  | [status, data1, data2] =>
      queue ++ [{ timestamp := time
                , message := { status := status, data1 := data1, data2 := data2 } }]
  | _ => queue

/-- `LaunchpadInternal::poll`: `try_iter().collect()` drains the whole queue;
`None` if nothing was queued, otherwise `Some` of the drained events in
arrival order.  Returns (result, queue afterwards). -/
def poll (queue : List MidiEvent) : Option (List MidiEvent) × List MidiEvent :=
  (if queue.isEmpty then none else some queue, [])

/-- `fn assert_position`: the match over the valid ranges; `true` means the
assertion passes (no panic). -/
def assert_position (pos : Nat) : Bool :=
  if 11 ≤ pos ∧ pos ≤ 19 then true
  else if 21 ≤ pos ∧ pos ≤ 29 then true
  else if 31 ≤ pos ∧ pos ≤ 39 then true
  else if 41 ≤ pos ∧ pos ≤ 49 then true
  else if 51 ≤ pos ∧ pos ≤ 59 then true
  else if 61 ≤ pos ∧ pos ≤ 69 then true
  else if 71 ≤ pos ∧ pos ≤ 79 then true
  else if 81 ≤ pos ∧ pos ≤ 89 then true
  else if 104 ≤ pos ∧ pos ≤ 111 then true
  else false

/-- `fn assert_color`: panics iff `clr > 127`. -/
def assert_color (clr : Nat) : Bool := decide (clr ≤ 127)

/-- `fn assert_column`: panics iff `col > 8`. -/
def assert_column (col : Nat) : Bool := decide (col ≤ 8)

/-- `fn assert_row`: panics iff `row > 8`. -/
def assert_row (row : Nat) : Bool := decide (row ≤ 8)

structure ColorLed where
  color : Nat
  position : Nat
  deriving DecidableEq

structure ColorColumn where
  color : Nat
  column : Nat
  deriving DecidableEq

structure ColorRow where
  color : Nat
  row : Nat
  deriving DecidableEq

end LaunchRs

namespace LaunchRs.Launchpad

/-- `Launchpad::reset`. -/
def reset : Outcome := .ok [[0xB0, 0x00, 0x00]]

inductive GridMappingMode where
  | XYLayout
  | DrumRackLayout
  deriving DecidableEq

/-- The `repr(u8)` discriminant read out by the `transmute`. -/
def GridMappingMode.toU8 : GridMappingMode → Nat
  | .XYLayout => 1
  | .DrumRackLayout => 2

/-- `Launchpad::set_grid_mapping_mode`. -/
def set_grid_mapping_mode (mode : GridMappingMode) : Outcome :=
  .ok [[0xB0, 0x00, mode.toU8]]

/-- `Launchpad::ctrl_double_buffer_display_update_flash_copy`. -/
def ctrl_double_buffer_display_update_flash_copy
    (display update flash copy : Bool) : Outcome :=
  let d := (if display then (1 : Nat) else 0) <<< 0
  let u := (if update then (1 : Nat) else 0) <<< 2
  let f := (if flash then (1 : Nat) else 0) <<< 3
  let c := (if copy then (1 : Nat) else 0) <<< 4
  .ok [[0xB0, 0x00, ((((0b0100000 ||| d) ||| u) ||| f) ||| c : Nat)]]

inductive Brightness where
  | Low
  | Medium
  | High
  deriving DecidableEq

/-- The `repr(u8)` discriminant read out by the `transmute`. -/
def Brightness.toU8 : Brightness → Nat
  | .Low => 125
  | .Medium => 126
  | .High => 127

/-- `Launchpad::light_all`. -/
def light_all (brightness : Brightness) : Outcome :=
  .ok [[0xB0, 0x00, brightness.toU8]]

/-- `Launchpad::light_top`. -/
def light_top (column data : Nat) : Outcome :=
  if column < 8 then
    if data < 128 then .ok [[0xB0, 0x68 + column, data]]
    else .panicked []
  else .panicked []

/-- One iteration batch of `for ab in xs.chunks_exact(2)`: one `0x92` frame
per consecutive pair, trailing odd byte dropped. -/
def pairFrames : List Nat → List Frame
  | a :: b :: rest => [0x92, a, b] :: pairFrames rest
  | _ => []

/-- `Launchpad::light_grid`: the cursor-reset frame is sent first, then the
three `assert!`s run, then the pair frames for grid, top, right. -/
def light_grid (grid top right : List Nat) : Outcome :=
  let rst : Frame := [0xB0, 0x68 + 8, 0]
  if grid.length = 8 * 8 then
    if top.length = 8 then
      if right.length = 8 then
        .ok (rst :: (pairFrames grid ++ pairFrames top ++ pairFrames right))
      else .panicked [rst]
    else .panicked [rst]
  else .panicked [rst]

end LaunchRs.Launchpad

namespace LaunchRs.LaunchpadMk2

/-- `LaunchpadMk2::light_all`. -/
def light_all (color : Nat) : Outcome :=
  if assert_color color then
    .ok [[0xF0, 0x00, 0x20, 0x29, 0x02, 0x18, 0x0E, color, 0xF7]]
  else .panicked []

/-- `LaunchpadMk2::flash_single`. -/
def flash_single (led : ColorLed) : Outcome :=
  if assert_position led.position then
    if assert_color led.color then .ok [[0x91, led.position, led.color]]
    else .panicked []
  else .panicked []

/-- `LaunchpadMk2::pulse_single`: note the source performs no validation
here, it sends the frame unconditionally. -/
def pulse_single (led : ColorLed) : Outcome :=
  .ok [[0x92, led.position, led.color]]

/-- The SysEx frame sent for one LED by `light_leds`. -/
def ledFrame (led : ColorLed) : Frame :=
  [0xF0, 0x00, 0x20, 0x29, 0x02, 0x18, 0x0A, led.position, led.color, 0xF7]

/-- Both asserts that `light_leds` runs for one LED. -/
def ledOk (led : ColorLed) : Bool :=
  assert_position led.position && assert_color led.color

/-- The `for led in leds` loop of `LaunchpadMk2::light_leds`: each LED is
validated and, if valid, its frame sent, before the next LED is looked at. -/
def light_leds_loop : List ColorLed → Outcome
  | [] => .ok []
  | led :: rest =>
    if assert_position led.position then
      if assert_color led.color then
        match light_leds_loop rest with
        | .ok fs => .ok (ledFrame led :: fs)
        | .panicked fs => .panicked (ledFrame led :: fs)
      else .panicked []
    else .panicked []

/-- `LaunchpadMk2::light_leds`: length assertion, then the per-LED loop. -/
def light_leds (leds : List ColorLed) : Outcome :=
  if leds.length ≤ 80 then light_leds_loop leds else .panicked []

/-- `LaunchpadMk2::light_led`: delegates to `light_leds` on a singleton. -/
def light_led (led : ColorLed) : Outcome := light_leds [led]

/-- The SysEx frame sent for one column by `light_columns`. -/
def columnFrame (col : ColorColumn) : Frame :=
  [0xF0, 0x00, 0x20, 0x29, 0x02, 0x18, 0x0C, col.column, col.color, 0xF7]

/-- The `for col in cols` loop of `LaunchpadMk2::light_columns`. -/
def light_columns_loop : List ColorColumn → Outcome
  | [] => .ok []
  | col :: rest =>
    if assert_column col.column then
      if assert_color col.color then
        match light_columns_loop rest with
        | .ok fs => .ok (columnFrame col :: fs)
        | .panicked fs => .panicked (columnFrame col :: fs)
      else .panicked []
    else .panicked []

/-- `LaunchpadMk2::light_columns`. -/
def light_columns (cols : List ColorColumn) : Outcome :=
  if cols.length ≤ 9 then light_columns_loop cols else .panicked []

/-- `LaunchpadMk2::light_column`: delegates to `light_columns`. -/
def light_column (col : ColorColumn) : Outcome := light_columns [col]

/-- The SysEx frame sent for one row by `light_rows`. -/
def rowFrame (row : ColorRow) : Frame :=
  [0xF0, 0x00, 0x20, 0x29, 0x02, 0x18, 0x0D, row.row, row.color, 0xF7]

/-- The `for row in rows` loop of `LaunchpadMk2::light_rows`. -/
def light_rows_loop : List ColorRow → Outcome
  | [] => .ok []
  | row :: rest =>
    if assert_row row.row then
      if assert_color row.color then
        match light_rows_loop rest with
        | .ok fs => .ok (rowFrame row :: fs)
        | .panicked fs => .panicked (rowFrame row :: fs)
      else .panicked []
    else .panicked []

/-- `LaunchpadMk2::light_rows`. -/
def light_rows (rows : List ColorRow) : Outcome :=
  if rows.length ≤ 9 then light_rows_loop rows else .panicked []

/-- `LaunchpadMk2::light_row`: delegates to `light_rows`. -/
def light_row (row : ColorRow) : Outcome := light_rows [row]

/-- `LaunchpadMk2::scroll_text`: color assert, then one frame of header,
color, loop byte, raw text bytes, terminator. -/
def scroll_text (color : Nat) (doloop : Bool) (text : List Nat) : Outcome :=
  if assert_color color then
    .ok [[0xF0, 0x00, 0x20, 0x29, 0x02, 0x18, 0x14, color,
          if doloop then 0x01 else 0x00] ++ text ++ [0xF7]]
  else .panicked []

end LaunchRs.LaunchpadMk2

namespace LaunchRs

set_option maxRecDepth 4096 in
/-- Claim C4: over all u8 values, the position validator accepts exactly the
nine documented ranges 11-19, 21-29, 31-39, 41-49, 51-59, 61-69, 71-79,
81-89, 104-111, and rejects every other value. -/
theorem claim4_assert_position_ranges :
    ∀ p : Fin 256, assert_position p.val = true ↔
      ((11 ≤ p.val ∧ p.val ≤ 19) ∨ (21 ≤ p.val ∧ p.val ≤ 29) ∨
       (31 ≤ p.val ∧ p.val ≤ 39) ∨ (41 ≤ p.val ∧ p.val ≤ 49) ∨
       (51 ≤ p.val ∧ p.val ≤ 59) ∨ (61 ≤ p.val ∧ p.val ≤ 69) ∨
       (71 ≤ p.val ∧ p.val ≤ 79) ∨ (81 ≤ p.val ∧ p.val ≤ 89) ∨
       (104 ≤ p.val ∧ p.val ≤ 111)) := by decide

/-- Claim C5: a non-empty queue is drained whole and in order by `poll`,
leaving the queue empty, and an empty queue yields the distinct no-data
value `none`. -/
theorem claim5_poll_drains (q : List MidiEvent) :
    (q ≠ [] → poll q = (some q, [])) ∧ poll ([] : List MidiEvent) = (none, []) := by
  refine ⟨fun h => ?_, rfl⟩
  cases q with
  | nil => exact absurd rfl h
  | cons a t => rfl

/-- Witness for C5 at the concrete events E1, E2, E3: one poll returns all
three in order and empties the queue; a poll of the empty queue returns
no data. -/
theorem claim5_poll_drains_witness :
    poll [({ timestamp := 1, message := { status := 144, data1 := 11, data2 := 127 } } : MidiEvent),
          { timestamp := 2, message := { status := 144, data1 := 12, data2 := 127 } },
          { timestamp := 3, message := { status := 144, data1 := 13, data2 := 0 } }] =
      (some [({ timestamp := 1, message := { status := 144, data1 := 11, data2 := 127 } } : MidiEvent),
             { timestamp := 2, message := { status := 144, data1 := 12, data2 := 127 } },
             { timestamp := 3, message := { status := 144, data1 := 13, data2 := 0 } }], []) ∧
    poll ([] : List MidiEvent) = (none, []) :=
  ⟨(claim5_poll_drains _).1 (by decide), (claim5_poll_drains []).2⟩

/-- Claim C7: a raw 3-byte message is wrapped with its timestamp and appended
to the queue; a message of any other length leaves the queue unchanged. -/
theorem claim7_on_midi_message (q : List MidiEvent) (time status data1 data2 : Nat)
    (msg : List Nat) :
    on_midi_message q time [status, data1, data2] =
      q ++ [{ timestamp := time
            , message := { status := status, data1 := data1, data2 := data2 } }] ∧
    (msg.length ≠ 3 → on_midi_message q time msg = q) := by
  refine ⟨rfl, fun h => ?_⟩
  match msg with
  | [] => rfl
  | [_] => rfl
  | [_, _] => rfl
  | [_, _, _] => exact absurd rfl h
  | _ :: _ :: _ :: _ :: _ => rfl

/-- Witness for C7: a concrete 3-byte message is enqueued; a concrete 2-byte
message is dropped and never reaches the queue. -/
theorem claim7_on_midi_message_witness :
    on_midi_message [] 7 [144, 11, 127] =
      [{ timestamp := 7, message := { status := 144, data1 := 11, data2 := 127 } }] ∧
    on_midi_message [] 7 [144, 11] = [] :=
  ⟨(claim7_on_midi_message [] 7 144 11 127 [144, 11]).1,
   (claim7_on_midi_message [] 7 144 11 127 [144, 11]).2 (by decide)⟩

/-- Claim C8: for every flag combination the double-buffer control sends one
3-byte frame whose third byte is the base pattern 0b0100000 with the
display, update, flash, copy flags contributing bits 0, 2, 3, 4. -/
theorem claim8_double_buffer_flags (display update flash copy : Bool) :
    Launchpad.ctrl_double_buffer_display_update_flash_copy display update flash copy =
      .ok [[0xB0, 0x00,
            32 + (if display then 1 else 0) + 4 * (if update then 1 else 0)
               + 8 * (if flash then 1 else 0) + 16 * (if copy then 1 else 0)]] := by
  cases display <;> cases update <;> cases flash <;> cases copy <;> decide

/-- Claim C9: the singleton operations are byte-for-byte the batch operations
applied to the one-element list: identical validation and frames. -/
theorem claim9_singletons_delegate (led : ColorLed) (col : ColorColumn) (row : ColorRow) :
    LaunchpadMk2.light_led led = LaunchpadMk2.light_leds [led] ∧
    LaunchpadMk2.light_column col = LaunchpadMk2.light_columns [col] ∧
    LaunchpadMk2.light_row row = LaunchpadMk2.light_rows [row] :=
  ⟨rfl, rfl, rfl⟩

/-- Claim C10: the Generation A brightness codes are 125, 126, 127 for Low,
Medium, High, and `light_all` sends the single frame B0 00 code. -/
theorem claim10_light_all_brightness (b : Launchpad.Brightness) :
    Launchpad.light_all b = .ok [[0xB0, 0x00, b.toU8]] ∧
    Launchpad.Brightness.toU8 .Low = 125 ∧
    Launchpad.Brightness.toU8 .Medium = 126 ∧
    Launchpad.Brightness.toU8 .High = 127 :=
  ⟨rfl, rfl, rfl, rfl⟩

/-- Claim C6: for a valid color, `scroll_text` sends exactly one frame of the
fixed 7-byte header, the color byte, the loop byte (1 or 0), the raw text
bytes, and the 0xF7 terminator. -/
theorem claim6_scroll_text (color : Nat) (h : color ≤ 127) (doloop : Bool)
    (text : List Nat) :
    LaunchpadMk2.scroll_text color doloop text =
      .ok [[0xF0, 0x00, 0x20, 0x29, 0x02, 0x18, 0x14, color,
            if doloop then 0x01 else 0x00] ++ text ++ [0xF7]] := by
  simp [LaunchpadMk2.scroll_text, assert_color, h]

/-- Witness for C6 at the documented example: scroll_text(5, false, "AB")
yields the frame F0 00 20 29 02 18 14 05 00 41 42 F7. -/
theorem claim6_scroll_text_witness :
    LaunchpadMk2.scroll_text 5 false [0x41, 0x42] =
      .ok [[0xF0, 0x00, 0x20, 0x29, 0x02, 0x18, 0x14, 0x05, 0x00, 0x41, 0x42, 0xF7]] := by
  have h := claim6_scroll_text 5 (by decide) false [0x41, 0x42]
  simpa using h

end LaunchRs

namespace LaunchRs

/-- When every LED passes both asserts, the loop sends one frame per LED in
input order. -/
theorem light_leds_loop_ok (leds : List ColorLed)
    (h : ∀ led ∈ leds, LaunchpadMk2.ledOk led = true) :
    LaunchpadMk2.light_leds_loop leds = .ok (leds.map LaunchpadMk2.ledFrame) := by
  induction leds with
  | nil => rfl
  | cons led rest ih =>
    have hled : LaunchpadMk2.ledOk led = true := h led (List.mem_cons_self _ _)
    have hrest : ∀ l ∈ rest, LaunchpadMk2.ledOk l = true :=
      fun l hl => h l (List.mem_cons_of_mem _ hl)
    have hsplit : assert_position led.position = true ∧ assert_color led.color = true := by
      have h2 := hled
      rw [LaunchpadMk2.ledOk, Bool.and_eq_true] at h2
      exact h2
    simp [LaunchpadMk2.light_leds_loop, hsplit.1, hsplit.2, ih hrest]

/-- When some LED fails an assert, the loop panics, and the frames already
sent are exactly those of the longest all-valid leading run. -/
theorem light_leds_loop_bad (leds : List ColorLed)
    (h : ∃ led ∈ leds, LaunchpadMk2.ledOk led = false) :
    LaunchpadMk2.light_leds_loop leds =
      .panicked ((leds.takeWhile LaunchpadMk2.ledOk).map LaunchpadMk2.ledFrame) := by
  induction leds with
  | nil => simp at h
  | cons led rest ih =>
    by_cases hpos : assert_position led.position = true
    · by_cases hcol : assert_color led.color = true
      · have hled : LaunchpadMk2.ledOk led = true := by
          simp [LaunchpadMk2.ledOk, hpos, hcol]
        have hrest : ∃ l ∈ rest, LaunchpadMk2.ledOk l = false := by
          rcases h with ⟨l, hl, hbad⟩
          rcases List.mem_cons.mp hl with h1 | h2
          · rw [h1, hled] at hbad; cases hbad
          · exact ⟨l, h2, hbad⟩
        simp [LaunchpadMk2.light_leds_loop, hpos, hcol, ih hrest,
              List.takeWhile_cons, hled]
      · have hcol2 : assert_color led.color = false := by simpa using hcol
        have hled : LaunchpadMk2.ledOk led = false := by
          simp [LaunchpadMk2.ledOk, hcol2]
        simp [LaunchpadMk2.light_leds_loop, hpos, hcol2, List.takeWhile_cons, hled]
    · have hpos2 : assert_position led.position = false := by simpa using hpos
      have hled : LaunchpadMk2.ledOk led = false := by
        simp [LaunchpadMk2.ledOk, hpos2]
      simp [LaunchpadMk2.light_leds_loop, hpos2, List.takeWhile_cons, hled]

/-- Counterexample to C1 as stated: the two-LED batch whose second LED has
the invalid position 0 contains an invalid entry, yet one frame (for the
first, valid LED) is transmitted before the panic — the batch is not
atomic. -/
theorem claim1_counterexample :
    (∃ led ∈ [ColorLed.mk 0 11, ColorLed.mk 0 0],
        assert_position led.position = false) ∧
    (LaunchpadMk2.light_leds [ColorLed.mk 0 11, ColorLed.mk 0 0]).frames ≠ [] := by
  decide

/-- Claim C1 amended: a batch longer than 80 panics before any frame is
sent; an in-range batch in which every LED is valid sends one frame per
LED; an in-range batch containing an invalid LED panics, but the frames
for the longest valid leading run have already been sent (so only a batch
whose FIRST invalid LED is at position 0 of the list fails with zero
frames — validation is per-LED inside the send loop, not atomic). -/
theorem claim1_light_leds_batch (leds : List ColorLed) :
    (80 < leds.length → LaunchpadMk2.light_leds leds = .panicked []) ∧
    (leds.length ≤ 80 → (∀ led ∈ leds, LaunchpadMk2.ledOk led = true) →
      LaunchpadMk2.light_leds leds = .ok (leds.map LaunchpadMk2.ledFrame)) ∧
    (leds.length ≤ 80 → (∃ led ∈ leds, LaunchpadMk2.ledOk led = false) →
      LaunchpadMk2.light_leds leds =
        .panicked ((leds.takeWhile LaunchpadMk2.ledOk).map LaunchpadMk2.ledFrame)) := by
  refine ⟨fun h => ?_, fun h hall => ?_, fun h hbad => ?_⟩
  · simp [LaunchpadMk2.light_leds, Nat.not_le.mpr h]
  · simp [LaunchpadMk2.light_leds, h, light_leds_loop_ok leds hall]
  · simp [LaunchpadMk2.light_leds, h, light_leds_loop_bad leds hbad]

/-- Witness for C1 amended at concrete inputs: an 81-entry batch panics with
zero frames; a valid singleton sends its frame; the batch [valid, invalid]
panics after sending exactly the first LED's frame. -/
theorem claim1_light_leds_batch_witness :
    LaunchpadMk2.light_leds (List.replicate 81 (ColorLed.mk 0 11)) = .panicked [] ∧
    LaunchpadMk2.light_leds [ColorLed.mk 0 11] =
      .ok [[0xF0, 0x00, 0x20, 0x29, 0x02, 0x18, 0x0A, 11, 0, 0xF7]] ∧
    LaunchpadMk2.light_leds [ColorLed.mk 0 11, ColorLed.mk 0 0] =
      .panicked [[0xF0, 0x00, 0x20, 0x29, 0x02, 0x18, 0x0A, 11, 0, 0xF7]] := by
  refine ⟨(claim1_light_leds_batch _).1 (by decide), ?_, ?_⟩
  · have h := (claim1_light_leds_batch [ColorLed.mk 0 11]).2.1 (by decide) (by decide)
    simpa using h
  · have h := (claim1_light_leds_batch [ColorLed.mk 0 11, ColorLed.mk 0 0]).2.2
      (by decide) ⟨ColorLed.mk 0 0, by decide, by decide⟩
    simpa using h

/-- Counterexample to C2 as stated: `pulse_single` on an LED with invalid
position 0 and invalid color 200 is not rejected — it sends the frame
92 00 C8 with no validation at all. -/
theorem claim2_counterexample :
    assert_position 0 = false ∧ assert_color 200 = false ∧
    LaunchpadMk2.pulse_single (ColorLed.mk 200 0) = .ok [[0x92, 0, 200]] := by
  decide

/-- Claim C2 amended: `flash_single` validates position and color before
sending and panics with zero frames on an invalid argument, but
`pulse_single` performs no validation and unconditionally sends its
3-byte frame whatever the position and color. -/
theorem claim2_flash_pulse_single (led : ColorLed) :
    (assert_position led.position = true → assert_color led.color = true →
      LaunchpadMk2.flash_single led = .ok [[0x91, led.position, led.color]]) ∧
    ((assert_position led.position = false ∨ assert_color led.color = false) →
      LaunchpadMk2.flash_single led = .panicked []) ∧
    LaunchpadMk2.pulse_single led = .ok [[0x92, led.position, led.color]] := by
  refine ⟨fun h1 h2 => ?_, fun h => ?_, rfl⟩
  · simp [LaunchpadMk2.flash_single, h1, h2]
  · rcases h with h | h
    · simp [LaunchpadMk2.flash_single, h]
    · by_cases hp : assert_position led.position = true <;>
        simp [LaunchpadMk2.flash_single, hp, h]

/-- Witness for C2 amended at concrete inputs: flash of a valid LED sends
its frame, flash of an invalid-position LED panics with zero frames, and
pulse of a doubly-invalid LED still sends a frame. -/
theorem claim2_flash_pulse_single_witness :
    LaunchpadMk2.flash_single (ColorLed.mk 5 11) = .ok [[0x91, 11, 5]] ∧
    LaunchpadMk2.flash_single (ColorLed.mk 5 0) = .panicked [] ∧
    LaunchpadMk2.pulse_single (ColorLed.mk 200 0) = .ok [[0x92, 0, 200]] :=
  ⟨(claim2_flash_pulse_single (ColorLed.mk 5 11)).1 (by decide) (by decide),
   (claim2_flash_pulse_single (ColorLed.mk 5 0)).2.1 (Or.inl (by decide)),
   (claim2_flash_pulse_single (ColorLed.mk 200 0)).2.2⟩

/-- Counterexample to C3 as stated: with a 63-element grid the call fails,
but a frame HAS been sent — the cursor-reset frame B0 70 00 goes out
before the length checks run. -/
theorem claim3_counterexample :
    (List.replicate 63 (0 : Nat)).length ≠ 64 ∧
    (Launchpad.light_grid (List.replicate 63 0) (List.replicate 8 0)
        (List.replicate 8 0)).frames = [[0xB0, 0x70, 0]] := by
  decide

/-- Claim C3 amended: whenever the lengths are not exactly 64/8/8 the call
panics before any DATA frame is sent, but after the single cursor-reset
frame B0 70 00, which is always transmitted first. -/
theorem claim3_light_grid_lengths (grid top right : List Nat)
    (h : ¬(grid.length = 64 ∧ top.length = 8 ∧ right.length = 8)) :
    Launchpad.light_grid grid top right = .panicked [[0xB0, 0x68 + 8, 0]] := by
  by_cases h1 : grid.length = 64
  · by_cases h2 : top.length = 8
    · by_cases h3 : right.length = 8
      · exact absurd ⟨h1, h2, h3⟩ h
      · simp [Launchpad.light_grid, h1, h2, h3]
    · simp [Launchpad.light_grid, h1, h2]
  · simp [Launchpad.light_grid, h1]

/-- Witness for C3 amended at the documented failing input: a 63-element
grid with correct top and right panics having sent exactly the
cursor-reset frame. -/
theorem claim3_light_grid_lengths_witness :
    Launchpad.light_grid (List.replicate 63 0) (List.replicate 8 0)
        (List.replicate 8 0) = .panicked [[0xB0, 0x68 + 8, 0]] :=
  claim3_light_grid_lengths _ _ _ (by decide)

end LaunchRs
